import Mathlib

/-!
# JNativeHook load/unload bridge (jni_Load.c)

A shallow embedding of `JNI_OnLoad` and `JNI_OnUnload` from
`lib/JNativeHook/src/jni/jni_Load.c`.

The two entry points are sequences of calls into collaborators (the Java
virtual machine, the uiohook engine, and the sibling units jni_Globals,
jni_Properties, jni_Logger and jni_Errors).  The embedding keeps the control
flow of the C functions and records every collaborator call, together with
the bridge state in which it was issued, in a trace.
-/

namespace JNativeHook

/-! ## Data model -/

/-- Identity of a Java virtual machine instance (a non-NULL `JavaVM *`). -/
abbrev JavaVM := Nat

/-- Identity of a thread environment (a non-NULL `JNIEnv *`). -/
abbrev JNIEnv := Nat

/-- Success code of the JNI invocation interface. -/
def JNI_OK : Int := 0

/-- Interface version constant of jni.h. -/
def JNI_VERSION_1_4 : Int := 0x00010004

/-- Log levels of uiohook.h. -/
inductive LogLevel where
  | LOG_LEVEL_DEBUG
  | LOG_LEVEL_INFO
  | LOG_LEVEL_WARN
  | LOG_LEVEL_ERROR
  deriving DecidableEq, Repr

/-- Callback functions whose address the bridge hands to the engine. -/
inductive Proc where
  | jni_Logger
  | jni_EventDispatcher
  deriving DecidableEq, Repr

/-- One call made by the bridge into a collaborator.  Pointer arguments of
type `JNIEnv *` are options, `none` being NULL. -/
inductive Call where
  | GetEnv (vm : JavaVM) (version : Int)
  | jni_CreateGlobals (env : Option JNIEnv)
  | fprintf_stderr (fmt : String) (func : String) (line : Nat)
  | ThrowFatalError (message : String)
  | hook_set_logger_proc (p : Proc)
  | jni_SetProperties (env : Option JNIEnv)
  | hook_set_dispatch_proc (p : Proc)
  | jni_Logger (level : LogLevel) (fmt : String) (func : String) (line : Nat)
  | jni_ClearProperties (env : Option JNIEnv)
  | jni_DestroyGlobals (env : Option JNIEnv)
  deriving DecidableEq, Repr

/-- Resource state of the bridge: the two globals of jni_Load.c (`jvm`,
`jni_version`) and the state its collaborators keep on its behalf. -/
structure Bridge where
  /-- The global `JavaVM *jvm`; `none` is NULL. -/
  jvm : Option JavaVM
  /-- The global `jint jni_version`. -/
  jni_version : Int
  /-- Whether the global resource registry of jni_Globals is populated. -/
  registry : Bool
  /-- Whether the mirrored configuration of jni_Properties is set. -/
  config : Bool
  /-- The logger slot of the engine. -/
  logger_proc : Option Proc
  /-- The dispatch slot of the engine. -/
  dispatch_proc : Option Proc
  deriving DecidableEq, Repr

/-- State of the bridge when the library has just been mapped: `jvm` is a
zero-initialised global, `jni_version` is initialised to `JNI_VERSION_1_4`,
nothing is populated or registered. -/
def Bridge.init : Bridge :=
  { jvm := none, jni_version := JNI_VERSION_1_4, registry := false,
    config := false, logger_proc := none, dispatch_proc := none }

/-- A recorded collaborator call with the bridge state it was issued in. -/
structure Step where
  pre : Bridge
  call : Call
  deriving DecidableEq, Repr

/-- The bridge state together with the history of collaborator calls. -/
structure Machine where
  bridge : Bridge
  trace : List Step
  deriving DecidableEq, Repr

/-- The calls of a trace, without the snapshots. -/
def Machine.calls (m : Machine) : List Call := m.trace.map Step.call

/-- Ways in which an entry point stops before reaching its end. -/
inductive Halt where
  /-- The fatal signal raised by `ThrowFatalError`. -/
  | fatal (message : String)
  /-- Dereference of a NULL `jvm`. -/
  | nullDeref
  deriving DecidableEq, Repr

/-- Result of running a piece of the bridge: it returns a value, or stops. -/
inductive Res (α : Type) where
  | ret (a : α) (m : Machine)
  | halt (h : Halt) (m : Machine)
  deriving Repr

/-- The machine a run ended in. -/
def Res.machine {α : Type} : Res α → Machine
  | .ret _ m => m
  | .halt _ m => m

/-- The value a run returned, if it returned. -/
def Res.value {α : Type} : Res α → Option α
  | .ret a _ => some a
  | .halt _ _ => none

/-- The reason a run stopped, if it stopped. -/
def Res.halted {α : Type} : Res α → Option Halt
  | .ret _ _ => none
  | .halt h _ => some h

/-- Computations of the bridge. -/
def Exec (α : Type) : Type := Machine → Res α

/-- Return a value without touching the machine. -/
def Exec.pure {α : Type} (a : α) : Exec α := fun m => .ret a m

/-- Sequencing: a stop ends the whole computation. -/
def Exec.bind {α β : Type} (x : Exec α) (f : α → Exec β) : Exec β := fun m =>
  match x m with
  | .ret a m1 => f a m1
  | .halt h m1 => .halt h m1

instance : Monad Exec where
  pure := Exec.pure
  bind := Exec.bind

/-- Record a collaborator call in the trace. -/
def record (c : Call) : Exec Unit := fun m =>
  .ret () { m with trace := m.trace ++ [{ pre := m.bridge, call := c }] }

/-- Update the bridge state. -/
def update (f : Bridge → Bridge) : Exec Unit := fun m =>
  .ret () { m with bridge := f m.bridge }

/-- Read the bridge state. -/
def getBridge : Exec Bridge := fun m => .ret m.bridge m

/-- Stop the computation. -/
def stop {α : Type} (h : Halt) : Exec α := fun m => .halt h m

/-! ## Collaborators -/

/-- Build flags and the outcomes of the collaborators whose results the
bridge branches on, for one run of an entry point. -/
structure Collab where
  /-- The preprocessor symbol `QUIET` is defined. -/
  QUIET : Bool
  /-- The preprocessor symbol `USE_QUIET` is defined. -/
  USE_QUIET : Bool
  /-- Status returned by `GetEnv` and the value it leaves in `env`. -/
  GetEnv : JavaVM → Int → Int × Option JNIEnv
  /-- Status returned by `jni_CreateGlobals`. -/
  jni_CreateGlobals : Option JNIEnv → Int

/-- The call `(*jvm)->GetEnv(jvm, (void **)(&env), version)`: returns the
status and the value of `env` after the call. -/
def GetEnv (w : Collab) (jvm : Option JavaVM) (version : Int) :
    Exec (Int × Option JNIEnv) :=
  match jvm with
  | none => stop .nullDeref
  | some vm => do
      record (.GetEnv vm version)
      pure (w.GetEnv vm version)

/-- Modelled from the spec: `jni_CreateGlobals` of jni_Globals (`Populate`),
whose definition is not among the sources.  On `JNI_OK` the registry is
populated; it "fails atomically", leaving the registry as it was. -/
def jni_CreateGlobals (w : Collab) (env : Option JNIEnv) : Exec Int := do
  record (.jni_CreateGlobals env)
  let rc := w.jni_CreateGlobals env
  if rc = JNI_OK then update (fun b => { b with registry := true })
  pure rc

/-- Modelled from the spec: `jni_DestroyGlobals` of jni_Globals (`Destroy`),
whose definition is not among the sources: "releases every cached
descriptor". -/
def jni_DestroyGlobals (env : Option JNIEnv) : Exec Unit := do
  record (.jni_DestroyGlobals env)
  update (fun b => { b with registry := false })

/-- Modelled from the spec: `jni_SetProperties` of jni_Properties, whose
definition is not among the sources: the configuration is "pushed into
runtime-visible configuration at load". -/
def jni_SetProperties (env : Option JNIEnv) : Exec Unit := do
  record (.jni_SetProperties env)
  update (fun b => { b with config := true })

/-- Modelled from the spec: `jni_ClearProperties` of jni_Properties, whose
definition is not among the sources: the configuration is "cleared at
unload". -/
def jni_ClearProperties (env : Option JNIEnv) : Exec Unit := do
  record (.jni_ClearProperties env)
  update (fun b => { b with config := false })

/-- Modelled from the spec: `hook_set_logger_proc` of the engine, whose
definition is not among the sources: "single-slot registration, last write
wins". -/
def hook_set_logger_proc (p : Proc) : Exec Unit := do
  record (.hook_set_logger_proc p)
  update (fun b => { b with logger_proc := some p })

/-- Modelled from the spec: `hook_set_dispatch_proc` of the engine, whose
definition is not among the sources: "single-slot registration, last write
wins". -/
def hook_set_dispatch_proc (p : Proc) : Exec Unit := do
  record (.hook_set_dispatch_proc p)
  update (fun b => { b with dispatch_proc := some p })

/-- The logging function `jni_Logger` of jni_Logger, called directly. -/
def jni_Logger (level : LogLevel) (fmt func : String) (line : Nat) : Exec Unit :=
  record (.jni_Logger level fmt func line)

/-- The libc call `fprintf(stderr, fmt, __FUNCTION__, __LINE__)`. -/
def fprintf_stderr (fmt func : String) (line : Nat) : Exec Unit :=
  record (.fprintf_stderr fmt func line)

/-- Modelled from the spec: `ThrowFatalError` of jni_Errors, whose definition
is not among the sources.  It raises the fatal signal, "an unrecoverable
condition reported to the runtime's module loader" whose raising "aborts the
remaining steps": control does not come back to the caller. -/
def ThrowFatalError (message : String) : Exec Unit := do
  record (.ThrowFatalError message)
  stop (.fatal message)

/-- A variant of `ThrowFatalError` that hands control back to its caller, as
a function that only posts a pending exception would.  It is used to show
which results depend on `ThrowFatalError` not returning. -/
def ThrowFatalError_returning (message : String) : Exec Unit :=
  record (.ThrowFatalError message)

/-! ## The entry points -/

/-- The body of `JNI_OnLoad`, for a given behaviour of `ThrowFatalError`. -/
def JNI_OnLoadWith (throwFatalError : String → Exec Unit) (w : Collab)
    (vm : JavaVM) : Exec Int := do
  update (fun b => { b with jvm := some vm })
  let g ← getBridge
  let (rc, env) ← GetEnv w g.jvm g.jni_version
  if rc = JNI_OK then
    if (← jni_CreateGlobals w env) ≠ JNI_OK then
      if !w.QUIET then
        fprintf_stderr "%s [%u]: CreateJNIGlobals() failed!\n" "JNI_OnLoad" 46
      throwFatalError "Failed to locate one or more required classes."
    hook_set_logger_proc .jni_Logger
    jni_SetProperties env
    hook_set_dispatch_proc .jni_EventDispatcher
  else
    if !w.USE_QUIET then
      fprintf_stderr "%s [%u]: GetEnv() failed!\n" "JNI_OnLoad" 64
    throwFatalError "Failed to acquire JNI interface pointer"
  jni_Logger .LOG_LEVEL_DEBUG "%s [%u]: JNI Loaded.\n" "JNI_OnLoad" 71
  return (← getBridge).jni_version

/-- The entry point `JNI_OnLoad(JavaVM *vm, void *reserved)`. -/
def JNI_OnLoad (w : Collab) (vm : JavaVM) : Exec Int :=
  JNI_OnLoadWith ThrowFatalError w vm

/-- The entry point `JNI_OnUnload(JavaVM *vm, void *reserved)`. -/
def JNI_OnUnload (w : Collab) (_vm : JavaVM) : Exec Unit := do
  let g ← getBridge
  let (rc, env) ← GetEnv w g.jvm g.jni_version
  if rc = JNI_OK then
    jni_ClearProperties env
  else
    jni_Logger .LOG_LEVEL_WARN "%s [%u]: Failed to call jni_ClearProperties()!\n"
      "JNI_OnUnload" 90
  jni_Logger .LOG_LEVEL_DEBUG "%s [%u]: JNI Unloaded.\n" "JNI_OnUnload" 94
  if env ≠ none then
    jni_DestroyGlobals env

/-! ## Runs of the runtime -/

/-- A machine with an empty history, in bridge state `b`. -/
def start (b : Bridge) : Machine := { bridge := b, trace := [] }

/-- The calls recorded by a run. -/
def Res.calls {α : Type} (r : Res α) : List Call := r.machine.calls

/-- One invocation of an entry point by the runtime, with the collaborator
outcomes of that invocation. -/
inductive Entry where
  | OnLoad (w : Collab) (vm : JavaVM)
  | OnUnload (w : Collab) (vm : JavaVM)

/-- Collaborators of an invocation. -/
def Entry.collab : Entry → Collab
  | .OnLoad w _ => w
  | .OnUnload w _ => w

/-- Machine after one invocation, whether it returned or stopped. -/
def Entry.run : Entry → Machine → Machine
  | .OnLoad w vm, m => (JNI_OnLoad w vm m).machine
  | .OnUnload w vm, m => (JNI_OnUnload w vm m).machine

/-- Machine after a sequence of invocations.  An invocation that stops does
not prevent the following ones, so every continuation the runtime could
choose is covered. -/
def runEntries : List Entry → Machine → Machine
  | [], m => m
  | e :: es, m => runEntries es (e.run m)

/-- A load followed by an unload. -/
structure Cycle where
  /-- Collaborator outcomes during the load. -/
  load : Collab
  /-- The handle passed to `JNI_OnLoad`. -/
  vm : JavaVM
  /-- Collaborator outcomes during the unload. -/
  unload : Collab
  /-- The handle passed to `JNI_OnUnload`. -/
  vmUnload : JavaVM

/-- The environment is available: `GetEnv` answers `JNI_OK` and leaves a
non-NULL `env`. -/
def envAvailable (r : Int × Option JNIEnv) : Prop := r.1 = JNI_OK ∧ r.2 ≠ none

instance (r : Int × Option JNIEnv) : Decidable (envAvailable r) := by
  unfold envAvailable; infer_instance

/-- Both halves of a cycle succeed when the bridge requests version `ver`:
the environment is available in the load and in the unload, and the
registry population succeeds. -/
def Cycle.successful (ver : Int) (c : Cycle) : Prop :=
  envAvailable (c.load.GetEnv c.vm ver) ∧
  c.load.jni_CreateGlobals (c.load.GetEnv c.vm ver).2 = JNI_OK ∧
  envAvailable (c.unload.GetEnv c.vm ver)

instance (ver : Int) (c : Cycle) : Decidable (c.successful ver) := by
  unfold Cycle.successful; infer_instance

/-- Run `JNI_OnLoad` then `JNI_OnUnload`; a stop ends the run. -/
def Cycle.run (c : Cycle) : Exec Unit := do
  let _ ← JNI_OnLoad c.load c.vm
  JNI_OnUnload c.unload c.vmUnload

/-- Run a sequence of load/unload pairs; a stop ends the run. -/
def runCycles : List Cycle → Exec Unit
  | [], m => .ret () m
  | c :: cs, m =>
    match c.run m with
    | .ret _ m1 => runCycles cs m1
    | .halt h m1 => .halt h m1

/-- The `GetEnv` answers follow the JNI contract: a failure leaves `env`
NULL. -/
def Collab.conforming (w : Collab) : Prop :=
  ∀ vm ver, (w.GetEnv vm ver).1 ≠ JNI_OK → (w.GetEnv vm ver).2 = none

/-! ## Classification of calls -/

/-- The call raises the fatal signal. -/
def Call.isThrowFatalError : Call → Bool
  | .ThrowFatalError _ => true
  | _ => false

/-- The call registers a dispatch callback with the engine. -/
def Call.isDispatchInstall : Call → Bool
  | .hook_set_dispatch_proc _ => true
  | _ => false

/-- The call registers a logging callback with the engine. -/
def Call.isLoggerInstall : Call → Bool
  | .hook_set_logger_proc _ => true
  | _ => false

/-- The call mirrors the configuration. -/
def Call.isSetProperties : Call → Bool
  | .jni_SetProperties _ => true
  | _ => false

/-- The call clears the mirrored configuration. -/
def Call.isClearProperties : Call → Bool
  | .jni_ClearProperties _ => true
  | _ => false

/-- The call populates the registry. -/
def Call.isCreateGlobals : Call → Bool
  | .jni_CreateGlobals _ => true
  | _ => false

/-- The call destroys the registry. -/
def Call.isDestroyGlobals : Call → Bool
  | .jni_DestroyGlobals _ => true
  | _ => false

/-- The call mutates the registry. -/
def Call.mutatesRegistry (c : Call) : Bool :=
  c.isCreateGlobals || c.isDestroyGlobals

/-- The call asks the virtual machine for an environment. -/
def Call.isGetEnv : Call → Bool
  | .GetEnv _ _ => true
  | _ => false

/-- The call logs a message at level WARN. -/
def Call.isWarn : Call → Bool
  | .jni_Logger .LOG_LEVEL_WARN _ _ _ => true
  | _ => false

/-- Shape of the invariants of a machine: `A` holds of the current bridge
state and `B` of every recorded step. -/
def Machine.Inv (A : Bridge → Prop) (B : Step → Prop) (m : Machine) : Prop :=
  A m.bridge ∧ ∀ s ∈ m.trace, B s

/-! ## Concrete collaborators -/

/-- Collaborators that all succeed: the environment is `1`. -/
def okCollab : Collab :=
  { QUIET := false, USE_QUIET := false,
    GetEnv := fun _ _ => (JNI_OK, some 1),
    jni_CreateGlobals := fun _ => JNI_OK }

/-- Collaborators whose `GetEnv` fails with `JNI_EDETACHED` and leaves `env`
NULL. -/
def noEnvCollab : Collab :=
  { QUIET := false, USE_QUIET := false,
    GetEnv := fun _ _ => (-2, none),
    jni_CreateGlobals := fun _ => JNI_OK }

/-- Collaborators whose `jni_CreateGlobals` fails with `JNI_ERR`. -/
def noClassCollab : Collab :=
  { QUIET := false, USE_QUIET := false,
    GetEnv := fun _ _ => (JNI_OK, some 1),
    jni_CreateGlobals := fun _ => -1 }

/-- The cycle in which everything succeeds on the handle `1`. -/
def okCycle : Cycle := { load := okCollab, vm := 1, unload := okCollab, vmUnload := 1 }

/-- Bridge state after a fully successful load of the handle `1`. -/
def loadedBridge : Bridge :=
  { jvm := some 1, jni_version := JNI_VERSION_1_4, registry := true, config := true,
    logger_proc := some .jni_Logger, dispatch_proc := some .jni_EventDispatcher }

/-! ## Unfolding lemmas -/

theorem Exec.bind_run {α β : Type} (x : Exec α) (f : α → Exec β) (m : Machine) :
    (x >>= f) m = match x m with
      | .ret a m1 => f a m1
      | .halt h m1 => .halt h m1 := rfl

theorem Exec.pure_run {α : Type} (a : α) (m : Machine) :
    (Pure.pure a : Exec α) m = .ret a m := rfl

/-- A fully successful load: the returned value, the final state and the
recorded steps. -/
theorem JNI_OnLoadWith_ok (t : String → Exec Unit) (w : Collab) (vm : JavaVM)
    (m : Machine) (env : Option JNIEnv)
    (h1 : w.GetEnv vm m.bridge.jni_version = (JNI_OK, env))
    (h2 : w.jni_CreateGlobals env = JNI_OK) :
    JNI_OnLoadWith t w vm m = .ret m.bridge.jni_version
      { bridge := { m.bridge with
          jvm := some vm, registry := true, config := true,
          logger_proc := some .jni_Logger, dispatch_proc := some .jni_EventDispatcher },
        trace := m.trace ++
          [ ⟨{ m.bridge with jvm := some vm }, .GetEnv vm m.bridge.jni_version⟩,
            ⟨{ m.bridge with jvm := some vm }, .jni_CreateGlobals env⟩,
            ⟨{ m.bridge with jvm := some vm, registry := true },
              .hook_set_logger_proc .jni_Logger⟩,
            ⟨{ m.bridge with
                jvm := some vm, registry := true, logger_proc := some .jni_Logger },
              .jni_SetProperties env⟩,
            ⟨{ m.bridge with
                jvm := some vm, registry := true, config := true,
                logger_proc := some .jni_Logger },
              .hook_set_dispatch_proc .jni_EventDispatcher⟩,
            ⟨{ m.bridge with
                jvm := some vm, registry := true, config := true,
                logger_proc := some .jni_Logger,
                dispatch_proc := some .jni_EventDispatcher },
              .jni_Logger .LOG_LEVEL_DEBUG "%s [%u]: JNI Loaded.\n" "JNI_OnLoad" 71⟩ ] } := by
  simp [JNI_OnLoadWith, Exec.bind_run, Exec.pure_run, update, getBridge, GetEnv, record,
    h1, h2, jni_CreateGlobals, hook_set_logger_proc, jni_SetProperties,
    hook_set_dispatch_proc, jni_Logger]

/-- A load whose registry population fails stops in `ThrowFatalError`. -/
theorem JNI_OnLoad_create_fail (w : Collab) (vm : JavaVM) (m : Machine)
    (env : Option JNIEnv)
    (h1 : w.GetEnv vm m.bridge.jni_version = (JNI_OK, env))
    (h2 : w.jni_CreateGlobals env ≠ JNI_OK) :
    JNI_OnLoad w vm m =
      .halt (.fatal "Failed to locate one or more required classes.")
        { bridge := { m.bridge with jvm := some vm },
          trace := m.trace ++
            ([ ⟨{ m.bridge with jvm := some vm }, .GetEnv vm m.bridge.jni_version⟩,
               ⟨{ m.bridge with jvm := some vm }, .jni_CreateGlobals env⟩ ] ++
             (if w.QUIET = true then []
              else [ ⟨{ m.bridge with jvm := some vm },
                .fprintf_stderr "%s [%u]: CreateJNIGlobals() failed!\n" "JNI_OnLoad" 46⟩ ]) ++
             [ ⟨{ m.bridge with jvm := some vm },
                .ThrowFatalError "Failed to locate one or more required classes."⟩ ]) } := by
  cases hq : w.QUIET <;>
    simp [JNI_OnLoad, JNI_OnLoadWith, Exec.bind_run, Exec.pure_run, update, getBridge,
      GetEnv, record, jni_CreateGlobals, ThrowFatalError, fprintf_stderr, stop, h1, h2, hq]

/-- A load whose environment lookup fails stops in `ThrowFatalError`. -/
theorem JNI_OnLoad_getenv_fail (w : Collab) (vm : JavaVM) (m : Machine)
    (h1 : (w.GetEnv vm m.bridge.jni_version).1 ≠ JNI_OK) :
    JNI_OnLoad w vm m =
      .halt (.fatal "Failed to acquire JNI interface pointer")
        { bridge := { m.bridge with jvm := some vm },
          trace := m.trace ++
            ([ ⟨{ m.bridge with jvm := some vm }, .GetEnv vm m.bridge.jni_version⟩ ] ++
             (if w.USE_QUIET = true then []
              else [ ⟨{ m.bridge with jvm := some vm },
                .fprintf_stderr "%s [%u]: GetEnv() failed!\n" "JNI_OnLoad" 64⟩ ]) ++
             [ ⟨{ m.bridge with jvm := some vm },
                .ThrowFatalError "Failed to acquire JNI interface pointer"⟩ ]) } := by
  rcases hg : w.GetEnv vm m.bridge.jni_version with ⟨rc, env⟩
  rw [hg] at h1
  simp only at h1
  cases hu : w.USE_QUIET <;>
    simp [JNI_OnLoad, JNI_OnLoadWith, Exec.bind_run, Exec.pure_run, update, getBridge,
      GetEnv, record, ThrowFatalError, fprintf_stderr, stop, hg, h1, hu]

/-- An unload with a NULL handle stops at the dereference of `jvm`. -/
theorem JNI_OnUnload_null (w : Collab) (vm : JavaVM) (m : Machine)
    (hj : m.bridge.jvm = none) :
    JNI_OnUnload w vm m = .halt .nullDeref m := by
  simp [JNI_OnUnload, Exec.bind_run, Exec.pure_run, getBridge, GetEnv, stop, hj]

/-- An unload with the handle set and the environment obtained. -/
theorem JNI_OnUnload_ok (w : Collab) (vm v : JavaVM) (m : Machine) (e : JNIEnv)
    (hj : m.bridge.jvm = some v)
    (hg : w.GetEnv v m.bridge.jni_version = (JNI_OK, some e)) :
    JNI_OnUnload w vm m = .ret ()
      { bridge := { m.bridge with config := false, registry := false },
        trace := m.trace ++
          [ ⟨m.bridge, .GetEnv v m.bridge.jni_version⟩,
            ⟨m.bridge, .jni_ClearProperties (some e)⟩,
            ⟨{ m.bridge with config := false },
              .jni_Logger .LOG_LEVEL_DEBUG "%s [%u]: JNI Unloaded.\n" "JNI_OnUnload" 94⟩,
            ⟨{ m.bridge with config := false }, .jni_DestroyGlobals (some e)⟩ ] } := by
  simp [JNI_OnUnload, Exec.bind_run, Exec.pure_run, update, getBridge, GetEnv, record,
    hj, hg, jni_ClearProperties, jni_DestroyGlobals, jni_Logger]

/-- An unload whose `GetEnv` answers `JNI_OK` but leaves `env` NULL. -/
theorem JNI_OnUnload_ok_null (w : Collab) (vm v : JavaVM) (m : Machine)
    (hj : m.bridge.jvm = some v)
    (hg : w.GetEnv v m.bridge.jni_version = (JNI_OK, none)) :
    JNI_OnUnload w vm m = .ret ()
      { bridge := { m.bridge with config := false },
        trace := m.trace ++
          [ ⟨m.bridge, .GetEnv v m.bridge.jni_version⟩,
            ⟨m.bridge, .jni_ClearProperties none⟩,
            ⟨{ m.bridge with config := false },
              .jni_Logger .LOG_LEVEL_DEBUG "%s [%u]: JNI Unloaded.\n" "JNI_OnUnload" 94⟩ ] } := by
  simp [JNI_OnUnload, Exec.bind_run, Exec.pure_run, update, getBridge, GetEnv, record,
    hj, hg, jni_ClearProperties, jni_DestroyGlobals, jni_Logger]

/-- An unload whose `GetEnv` fails and leaves `env` NULL. -/
theorem JNI_OnUnload_fail_null (w : Collab) (vm v : JavaVM) (m : Machine) (rc : Int)
    (hj : m.bridge.jvm = some v)
    (hg : w.GetEnv v m.bridge.jni_version = (rc, none)) (hrc : rc ≠ JNI_OK) :
    JNI_OnUnload w vm m = .ret ()
      { bridge := m.bridge,
        trace := m.trace ++
          [ ⟨m.bridge, .GetEnv v m.bridge.jni_version⟩,
            ⟨m.bridge, .jni_Logger .LOG_LEVEL_WARN
              "%s [%u]: Failed to call jni_ClearProperties()!\n" "JNI_OnUnload" 90⟩,
            ⟨m.bridge,
              .jni_Logger .LOG_LEVEL_DEBUG "%s [%u]: JNI Unloaded.\n" "JNI_OnUnload" 94⟩ ] } := by
  simp [JNI_OnUnload, Exec.bind_run, Exec.pure_run, update, getBridge, GetEnv, record,
    hj, hg, hrc, jni_ClearProperties, jni_DestroyGlobals, jni_Logger]

/-- An unload whose `GetEnv` fails but leaves a non-NULL `env`, which the
JNI contract excludes. -/
theorem JNI_OnUnload_fail_env (w : Collab) (vm v : JavaVM) (m : Machine) (rc : Int)
    (e : JNIEnv) (hj : m.bridge.jvm = some v)
    (hg : w.GetEnv v m.bridge.jni_version = (rc, some e)) (hrc : rc ≠ JNI_OK) :
    JNI_OnUnload w vm m = .ret ()
      { bridge := { m.bridge with registry := false },
        trace := m.trace ++
          [ ⟨m.bridge, .GetEnv v m.bridge.jni_version⟩,
            ⟨m.bridge, .jni_Logger .LOG_LEVEL_WARN
              "%s [%u]: Failed to call jni_ClearProperties()!\n" "JNI_OnUnload" 90⟩,
            ⟨m.bridge,
              .jni_Logger .LOG_LEVEL_DEBUG "%s [%u]: JNI Unloaded.\n" "JNI_OnUnload" 94⟩,
            ⟨m.bridge, .jni_DestroyGlobals (some e)⟩ ] } := by
  simp [JNI_OnUnload, Exec.bind_run, Exec.pure_run, update, getBridge, GetEnv, record,
    hj, hg, hrc, jni_ClearProperties, jni_DestroyGlobals, jni_Logger]

/-! ## Invariants of sequences of invocations -/

/-- An invariant kept by every invocation is kept by every sequence. -/
theorem runEntries_inv (A : Bridge → Prop) (B : Step → Prop) (ok : Entry → Prop)
    (hstep : ∀ e m, ok e → m.Inv A B → (e.run m).Inv A B) :
    ∀ es m, (∀ e ∈ es, ok e) → m.Inv A B → (runEntries es m).Inv A B := by
  intro es
  induction es with
  | nil => intro m _ h; exact h
  | cons e es ih =>
    intro m hok h
    exact ih (e.run m) (fun e1 h1 => hok e1 (List.mem_cons_of_mem _ h1))
      (hstep e m (hok e (List.mem_cons_self _ _)) h)

/-- No invocation writes `jni_version`, and every `GetEnv` is requested with
it. -/
theorem Entry.run_version (v : Int) (e : Entry) (m : Machine)
    (h : m.Inv (fun b => b.jni_version = v)
      (fun s => ∀ vm ver, s.call = .GetEnv vm ver → ver = v)) :
    (e.run m).Inv (fun b => b.jni_version = v)
      (fun s => ∀ vm ver, s.call = .GetEnv vm ver → ver = v) := by
  obtain ⟨hA, hB⟩ := h
  simp only at hA hB
  subst hA
  cases e with
  | OnLoad w vm =>
    rcases hg : w.GetEnv vm m.bridge.jni_version with ⟨rc, env⟩
    by_cases hrc : rc = JNI_OK
    · subst hrc
      by_cases hc : w.jni_CreateGlobals env = JNI_OK
      · rw [Entry.run, JNI_OnLoad, JNI_OnLoadWith_ok _ w vm m env hg hc]
        simp [Machine.Inv, Res.machine, or_imp, forall_and]
        tauto
      · rw [Entry.run, JNI_OnLoad_create_fail w vm m env hg hc]
        cases w.QUIET <;> simp [Machine.Inv, Res.machine, or_imp, forall_and] <;>
          tauto
    · rw [Entry.run, JNI_OnLoad_getenv_fail w vm m (by rw [hg]; exact hrc)]
      cases w.USE_QUIET <;> simp [Machine.Inv, Res.machine, or_imp, forall_and] <;>
        tauto
  | OnUnload w vm =>
    cases hj : m.bridge.jvm with
    | none =>
      rw [Entry.run, JNI_OnUnload_null w vm m hj]
      exact ⟨rfl, hB⟩
    | some v =>
      rcases hg : w.GetEnv v m.bridge.jni_version with ⟨rc, env⟩
      by_cases hrc : rc = JNI_OK
      · subst hrc
        cases env with
        | none =>
          rw [Entry.run, JNI_OnUnload_ok_null w vm v m hj hg]
          simp [Machine.Inv, Res.machine, or_imp, forall_and]
          tauto
        | some en =>
          rw [Entry.run, JNI_OnUnload_ok w vm v m en hj hg]
          simp [Machine.Inv, Res.machine, or_imp, forall_and]
          tauto
      · cases env with
        | none =>
          rw [Entry.run, JNI_OnUnload_fail_null w vm v m rc hj hg hrc]
          simp [Machine.Inv, Res.machine, or_imp, forall_and]
          tauto
        | some en =>
          rw [Entry.run, JNI_OnUnload_fail_env w vm v m rc en hj hg hrc]
          simp [Machine.Inv, Res.machine, or_imp, forall_and]
          tauto

/-- With `GetEnv` answers that follow the JNI contract, no invocation leaves
or passes through a state in which the configuration is mirrored while the
registry is not populated. -/
theorem Entry.run_config_registry (e : Entry) (m : Machine) (hw : e.collab.conforming)
    (h : m.Inv (fun b => b.config = true → b.registry = true)
      (fun s => s.pre.config = true → s.pre.registry = true)) :
    (e.run m).Inv (fun b => b.config = true → b.registry = true)
      (fun s => s.pre.config = true → s.pre.registry = true) := by
  obtain ⟨hA, hB⟩ := h
  simp only at hA hB
  cases e with
  | OnLoad w vm =>
    rcases hg : w.GetEnv vm m.bridge.jni_version with ⟨rc, env⟩
    by_cases hrc : rc = JNI_OK
    · subst hrc
      by_cases hc : w.jni_CreateGlobals env = JNI_OK
      · rw [Entry.run, JNI_OnLoad, JNI_OnLoadWith_ok _ w vm m env hg hc]
        simp [Machine.Inv, Res.machine, or_imp, forall_and]
        tauto
      · rw [Entry.run, JNI_OnLoad_create_fail w vm m env hg hc]
        cases w.QUIET <;> simp [Machine.Inv, Res.machine, or_imp, forall_and] <;>
          tauto
    · rw [Entry.run, JNI_OnLoad_getenv_fail w vm m (by rw [hg]; exact hrc)]
      cases w.USE_QUIET <;> simp [Machine.Inv, Res.machine, or_imp, forall_and] <;>
        tauto
  | OnUnload w vm =>
    cases hj : m.bridge.jvm with
    | none =>
      rw [Entry.run, JNI_OnUnload_null w vm m hj]
      exact ⟨hA, hB⟩
    | some v =>
      rcases hg : w.GetEnv v m.bridge.jni_version with ⟨rc, env⟩
      by_cases hrc : rc = JNI_OK
      · subst hrc
        cases env with
        | none =>
          rw [Entry.run, JNI_OnUnload_ok_null w vm v m hj hg]
          simp [Machine.Inv, Res.machine, or_imp, forall_and]
          tauto
        | some en =>
          rw [Entry.run, JNI_OnUnload_ok w vm v m en hj hg]
          simp [Machine.Inv, Res.machine, or_imp, forall_and]
          tauto
      · cases env with
        | none =>
          rw [Entry.run, JNI_OnUnload_fail_null w vm v m rc hj hg hrc]
          simp [Machine.Inv, Res.machine, or_imp, forall_and]
          tauto
        | some en =>
          have hconf := hw v m.bridge.jni_version
          simp only [Entry.collab] at hconf
          rw [hg] at hconf
          exact absurd (hconf hrc) (by simp)

/-- Neither entry point clears the dispatch slot: once `jni_EventDispatcher`
is registered it is registered in every later state. -/
theorem Entry.run_dispatch_stays (e : Entry) (m : Machine)
    (h : m.Inv (fun b => b.dispatch_proc = some .jni_EventDispatcher)
      (fun s => s.pre.dispatch_proc = some .jni_EventDispatcher)) :
    (e.run m).Inv (fun b => b.dispatch_proc = some .jni_EventDispatcher)
      (fun s => s.pre.dispatch_proc = some .jni_EventDispatcher) := by
  obtain ⟨hA, hB⟩ := h
  simp only at hA hB
  cases e with
  | OnLoad w vm =>
    rcases hg : w.GetEnv vm m.bridge.jni_version with ⟨rc, env⟩
    by_cases hrc : rc = JNI_OK
    · subst hrc
      by_cases hc : w.jni_CreateGlobals env = JNI_OK
      · rw [Entry.run, JNI_OnLoad, JNI_OnLoadWith_ok _ w vm m env hg hc]
        simp [Machine.Inv, Res.machine, or_imp, forall_and]
        tauto
      · rw [Entry.run, JNI_OnLoad_create_fail w vm m env hg hc]
        cases w.QUIET <;> simp [Machine.Inv, Res.machine, or_imp, forall_and] <;>
          tauto
    · rw [Entry.run, JNI_OnLoad_getenv_fail w vm m (by rw [hg]; exact hrc)]
      cases w.USE_QUIET <;> simp [Machine.Inv, Res.machine, or_imp, forall_and] <;>
        tauto
  | OnUnload w vm =>
    cases hj : m.bridge.jvm with
    | none =>
      rw [Entry.run, JNI_OnUnload_null w vm m hj]
      exact ⟨hA, hB⟩
    | some v =>
      rcases hg : w.GetEnv v m.bridge.jni_version with ⟨rc, env⟩
      by_cases hrc : rc = JNI_OK
      · subst hrc
        cases env with
        | none =>
          rw [Entry.run, JNI_OnUnload_ok_null w vm v m hj hg]
          simp [Machine.Inv, Res.machine, or_imp, forall_and]
          tauto
        | some en =>
          rw [Entry.run, JNI_OnUnload_ok w vm v m en hj hg]
          simp [Machine.Inv, Res.machine, or_imp, forall_and]
          tauto
      · cases env with
        | none =>
          rw [Entry.run, JNI_OnUnload_fail_null w vm v m rc hj hg hrc]
          simp [Machine.Inv, Res.machine, or_imp, forall_and]
          tauto
        | some en =>
          rw [Entry.run, JNI_OnUnload_fail_env w vm v m rc en hj hg hrc]
          simp [Machine.Inv, Res.machine, or_imp, forall_and]
          tauto

/-- Between invocations a populated registry comes with a registered
dispatch callback, and every `jni_DestroyGlobals` issued on a populated
registry is issued while `jni_EventDispatcher` is registered. -/
theorem Entry.run_registry_dispatch (e : Entry) (m : Machine)
    (h : m.Inv (fun b => b.registry = true → b.dispatch_proc = some .jni_EventDispatcher)
      (fun s => s.call.isDestroyGlobals = true → s.pre.registry = true →
        s.pre.dispatch_proc = some .jni_EventDispatcher)) :
    (e.run m).Inv (fun b => b.registry = true → b.dispatch_proc = some .jni_EventDispatcher)
      (fun s => s.call.isDestroyGlobals = true → s.pre.registry = true →
        s.pre.dispatch_proc = some .jni_EventDispatcher) := by
  obtain ⟨hA, hB⟩ := h
  simp only at hA hB
  cases e with
  | OnLoad w vm =>
    rcases hg : w.GetEnv vm m.bridge.jni_version with ⟨rc, env⟩
    by_cases hrc : rc = JNI_OK
    · subst hrc
      by_cases hc : w.jni_CreateGlobals env = JNI_OK
      · rw [Entry.run, JNI_OnLoad, JNI_OnLoadWith_ok _ w vm m env hg hc]
        simp [Machine.Inv, Res.machine, or_imp, forall_and, Call.isDestroyGlobals]
        tauto
      · rw [Entry.run, JNI_OnLoad_create_fail w vm m env hg hc]
        cases w.QUIET <;> simp [Machine.Inv, Res.machine, or_imp, forall_and, Call.isDestroyGlobals] <;>
          tauto
    · rw [Entry.run, JNI_OnLoad_getenv_fail w vm m (by rw [hg]; exact hrc)]
      cases w.USE_QUIET <;> simp [Machine.Inv, Res.machine, or_imp, forall_and, Call.isDestroyGlobals] <;>
        tauto
  | OnUnload w vm =>
    cases hj : m.bridge.jvm with
    | none =>
      rw [Entry.run, JNI_OnUnload_null w vm m hj]
      exact ⟨hA, hB⟩
    | some v =>
      rcases hg : w.GetEnv v m.bridge.jni_version with ⟨rc, env⟩
      by_cases hrc : rc = JNI_OK
      · subst hrc
        cases env with
        | none =>
          rw [Entry.run, JNI_OnUnload_ok_null w vm v m hj hg]
          simp [Machine.Inv, Res.machine, or_imp, forall_and, Call.isDestroyGlobals]
          tauto
        | some en =>
          rw [Entry.run, JNI_OnUnload_ok w vm v m en hj hg]
          simp [Machine.Inv, Res.machine, or_imp, forall_and, Call.isDestroyGlobals]
          tauto
      · cases env with
        | none =>
          rw [Entry.run, JNI_OnUnload_fail_null w vm v m rc hj hg hrc]
          simp [Machine.Inv, Res.machine, or_imp, forall_and, Call.isDestroyGlobals]
          tauto
        | some en =>
          rw [Entry.run, JNI_OnUnload_fail_env w vm v m rc en hj hg hrc]
          simp [Machine.Inv, Res.machine, or_imp, forall_and, Call.isDestroyGlobals]
          tauto

/-- The handle stored by `JNI_OnLoad` is its argument, whatever the outcome
of the load. -/
theorem JNI_OnLoad_stores_vm (w : Collab) (vm : JavaVM) (m : Machine) :
    (JNI_OnLoad w vm m).machine.bridge.jvm = some vm := by
  rcases hg : w.GetEnv vm m.bridge.jni_version with ⟨rc, env⟩
  by_cases hrc : rc = JNI_OK
  · subst hrc
    by_cases hc : w.jni_CreateGlobals env = JNI_OK
    · rw [JNI_OnLoad, JNI_OnLoadWith_ok _ w vm m env hg hc]
      rfl
    · rw [JNI_OnLoad_create_fail w vm m env hg hc]
      rfl
  · rw [JNI_OnLoad_getenv_fail w vm m (by rw [hg]; exact hrc)]
    rfl

/-- With the handle set, `JNI_OnUnload` returns, keeps the handle, and its
first call is the environment lookup on the stored handle. -/
theorem JNI_OnUnload_of_jvm (w : Collab) (vm v : JavaVM) (m : Machine)
    (hj : m.bridge.jvm = some v) :
    (JNI_OnUnload w vm m).halted = none ∧
    (JNI_OnUnload w vm m).machine.bridge.jvm = some v ∧
    ∃ rest, (JNI_OnUnload w vm m).machine.trace =
      m.trace ++ ⟨m.bridge, .GetEnv v m.bridge.jni_version⟩ :: rest := by
  rcases hg : w.GetEnv v m.bridge.jni_version with ⟨rc, env⟩
  by_cases hrc : rc = JNI_OK
  · subst hrc
    cases env with
    | none =>
      rw [JNI_OnUnload_ok_null w vm v m hj hg]
      exact ⟨rfl, hj, _, rfl⟩
    | some en =>
      rw [JNI_OnUnload_ok w vm v m en hj hg]
      exact ⟨rfl, hj, _, rfl⟩
  · cases env with
    | none =>
      rw [JNI_OnUnload_fail_null w vm v m rc hj hg hrc]
      exact ⟨rfl, hj, _, rfl⟩
    | some en =>
      rw [JNI_OnUnload_fail_env w vm v m rc en hj hg hrc]
      exact ⟨rfl, hj, _, rfl⟩

/-- The stored handle, once set, is never reset to NULL. -/
theorem Entry.run_jvm_set (e : Entry) (m : Machine) (h : m.bridge.jvm ≠ none) :
    (e.run m).bridge.jvm ≠ none := by
  cases e with
  | OnLoad w vm =>
    rw [Entry.run, JNI_OnLoad_stores_vm]
    simp
  | OnUnload w vm =>
    cases hj : m.bridge.jvm with
    | none => exact absurd hj h
    | some v =>
      rw [Entry.run, (JNI_OnUnload_of_jvm w vm v m hj).2.1]
      simp

/-- After any sequence of invocations a set handle is still set. -/
theorem runEntries_jvm_set : ∀ (es : List Entry) (m : Machine),
    m.bridge.jvm ≠ none → (runEntries es m).bridge.jvm ≠ none := by
  intro es
  induction es with
  | nil => intro m h; exact h
  | cons e es ih => intro m h; exact ih (e.run m) (Entry.run_jvm_set e m h)

/-! ## Lemmas on failing loads and on load/unload pairs -/

/-- If `ThrowFatalError` handed control back, a load whose registry
population fails would go on to register the dispatch callback: the C code
has no `return` and no `else` after the call. -/
theorem JNI_OnLoadWith_returning_installs_dispatch (w : Collab) (vm : JavaVM) (b : Bridge)
    (h1 : (w.GetEnv vm b.jni_version).1 = JNI_OK)
    (h2 : w.jni_CreateGlobals (w.GetEnv vm b.jni_version).2 ≠ JNI_OK) :
    Call.hook_set_dispatch_proc .jni_EventDispatcher ∈
        (JNI_OnLoadWith ThrowFatalError_returning w vm (start b)).calls ∧
      (JNI_OnLoadWith ThrowFatalError_returning w vm (start b)).machine.bridge.dispatch_proc
        = some .jni_EventDispatcher := by
  rcases hg : w.GetEnv vm b.jni_version with ⟨rc, env⟩
  rw [hg] at h1 h2
  simp only at h1 h2
  cases hq : w.QUIET <;>
    simp [JNI_OnLoadWith, Exec.bind_run, Exec.pure_run, update, getBridge, GetEnv, record,
      jni_CreateGlobals, hook_set_logger_proc, jni_SetProperties, hook_set_dispatch_proc,
      jni_Logger, ThrowFatalError_returning, fprintf_stderr, Res.calls, Res.machine,
      Machine.calls, start, hg, h1, h2, hq]

/-- With a `ThrowFatalError` that hands control back, a failing load still
calls it exactly once. -/
theorem JNI_OnLoadWith_returning_fatal_count (w : Collab) (vm : JavaVM) (b : Bridge)
    (hfail : ¬ ((w.GetEnv vm b.jni_version).1 = JNI_OK ∧
      w.jni_CreateGlobals (w.GetEnv vm b.jni_version).2 = JNI_OK)) :
    (JNI_OnLoadWith ThrowFatalError_returning w vm (start b)).calls.countP
      Call.isThrowFatalError = 1 := by
  rcases hg : w.GetEnv vm b.jni_version with ⟨rc, env⟩
  rw [hg] at hfail
  simp only at hfail
  by_cases hrc : rc = JNI_OK
  · have hc : w.jni_CreateGlobals env ≠ JNI_OK := fun h => hfail ⟨hrc, h⟩
    cases hq : w.QUIET <;>
      simp [JNI_OnLoadWith, Exec.bind_run, Exec.pure_run, update, getBridge, GetEnv, record,
        jni_CreateGlobals, hook_set_logger_proc, jni_SetProperties, hook_set_dispatch_proc,
        jni_Logger, ThrowFatalError_returning, fprintf_stderr, Res.calls, Res.machine,
        Machine.calls, start, Call.isThrowFatalError, List.countP_cons, hg, hrc, hc, hq]
  · cases hu : w.USE_QUIET <;>
      simp [JNI_OnLoadWith, Exec.bind_run, Exec.pure_run, update, getBridge, GetEnv, record,
        jni_Logger, ThrowFatalError_returning, fprintf_stderr, Res.calls, Res.machine,
        Machine.calls, start, Call.isThrowFatalError, List.countP_cons, hg, hrc, hu]

/-- A successful load/unload pair returns and leaves the registry empty and
the configuration cleared, the handle stored and both callbacks registered. -/
theorem Cycle.run_ok (c : Cycle) (m : Machine) (hs : c.successful m.bridge.jni_version) :
    ∃ t, c.run m = .ret ()
      { bridge :=
          { jvm := some c.vm, jni_version := m.bridge.jni_version, registry := false,
            config := false, logger_proc := some .jni_Logger,
            dispatch_proc := some .jni_EventDispatcher },
        trace := t } := by
  obtain ⟨⟨hl1, -⟩, hl2, hu1, hu2⟩ := hs
  rcases hgl : c.load.GetEnv c.vm m.bridge.jni_version with ⟨rcl, envl⟩
  rcases hgu : c.unload.GetEnv c.vm m.bridge.jni_version with ⟨rcu, envu⟩
  rw [hgl] at hl1 hl2
  rw [hgu] at hu1 hu2
  simp only at hl1 hl2 hu1 hu2
  subst hl1 hu1
  cases envu with
  | none => exact absurd rfl hu2
  | some e =>
    have hload := JNI_OnLoadWith_ok ThrowFatalError c.load c.vm m envl hgl hl2
    obtain ⟨m1, hm1⟩ : ∃ m1, m1 = (JNI_OnLoadWith ThrowFatalError c.load c.vm m).machine :=
      ⟨_, rfl⟩
    have hret : JNI_OnLoadWith ThrowFatalError c.load c.vm m = .ret m.bridge.jni_version m1 := by
      rw [hm1, hload]
      rfl
    have hb : m1.bridge =
        { jvm := some c.vm, jni_version := m.bridge.jni_version, registry := true,
          config := true, logger_proc := some .jni_Logger,
          dispatch_proc := some .jni_EventDispatcher } := by
      rw [hm1, hload]
      rfl
    have hj : m1.bridge.jvm = some c.vm := by rw [hb]
    have hgu1 : c.unload.GetEnv c.vm m1.bridge.jni_version = (JNI_OK, some e) := by
      rw [hb]
      exact hgu
    have hrun : c.run m =
        (JNI_OnLoad c.load c.vm >>= fun _ => JNI_OnUnload c.unload c.vmUnload) m := rfl
    rw [hrun, Exec.bind_run, JNI_OnLoad, hret]
    simp only
    rw [JNI_OnUnload_ok c.unload c.vmUnload c.vm m1 e hj hgu1, hb]
    exact ⟨_, rfl⟩

/-- A non-empty sequence of successful pairs returns in the state left by
its last pair. -/
theorem runCycles_ok : ∀ (cs : List Cycle) (c0 : Cycle) (m : Machine),
    (∀ c ∈ c0 :: cs, c.successful m.bridge.jni_version) →
    ∃ t, runCycles (c0 :: cs) m = .ret ()
      { bridge :=
          { jvm := some (cs.getLastD c0).vm, jni_version := m.bridge.jni_version,
            registry := false, config := false, logger_proc := some .jni_Logger,
            dispatch_proc := some .jni_EventDispatcher },
        trace := t } := by
  intro cs
  induction cs with
  | nil =>
    intro c0 m hs
    obtain ⟨t, ht⟩ := Cycle.run_ok c0 m (hs c0 (List.mem_cons_self _ _))
    rw [runCycles, ht]
    exact ⟨t, rfl⟩
  | cons c1 cs ih =>
    intro c0 m hs
    obtain ⟨t, ht⟩ := Cycle.run_ok c0 m (hs c0 (List.mem_cons_self _ _))
    obtain ⟨t1, ht1⟩ := ih c1
      { bridge :=
          { jvm := some c0.vm, jni_version := m.bridge.jni_version, registry := false,
            config := false, logger_proc := some .jni_Logger,
            dispatch_proc := some .jni_EventDispatcher },
        trace := t }
      (fun c hc => hs c (List.mem_cons_of_mem _ hc))
    rw [runCycles, ht]
    simp only
    rw [ht1, List.getLastD_cons]
    exact ⟨t1, rfl⟩

/-! ## Claims -/

/-- C1: when a step of `JNI_OnLoad` fails (`GetEnv` does not answer `JNI_OK`,
or `jni_CreateGlobals` does not), the load stops with the fatal signal and
the remaining steps are not run: neither `hook_set_logger_proc`, nor
`jni_SetProperties`, nor `hook_set_dispatch_proc` is called, and the dispatch
slot is what it was before the load, so a load that starts with no dispatch
registration ends with none. -/
theorem C1_failed_load_installs_no_dispatch (w : Collab) (vm : JavaVM) (b : Bridge)
    (hfail : (w.GetEnv vm b.jni_version).1 ≠ JNI_OK ∨
      w.jni_CreateGlobals (w.GetEnv vm b.jni_version).2 ≠ JNI_OK) :
    (∃ msg, (JNI_OnLoad w vm (start b)).halted = some (.fatal msg)) ∧
    (∀ c ∈ (JNI_OnLoad w vm (start b)).calls,
      c.isDispatchInstall = false ∧ c.isSetProperties = false ∧
        c.isLoggerInstall = false) ∧
    (JNI_OnLoad w vm (start b)).machine.bridge.dispatch_proc = b.dispatch_proc ∧
    (b.dispatch_proc = none →
      (JNI_OnLoad w vm (start b)).machine.bridge.dispatch_proc = none) := by
  rcases hg : w.GetEnv vm b.jni_version with ⟨rc, env⟩
  rw [hg] at hfail
  simp only at hfail
  by_cases hrc : rc = JNI_OK
  · subst hrc
    have hc : w.jni_CreateGlobals env ≠ JNI_OK := by
      rcases hfail with h | h
      · exact absurd rfl h
      · exact h
    rw [JNI_OnLoad_create_fail w vm (start b) env hg hc]
    cases w.QUIET <;>
      simp [Res.calls, Res.machine, Res.halted, Machine.calls, start,
        Call.isDispatchInstall, Call.isSetProperties, Call.isLoggerInstall]
  · have hg1 : (w.GetEnv vm (start b).bridge.jni_version).1 ≠ JNI_OK := by
      show (w.GetEnv vm b.jni_version).1 ≠ JNI_OK
      rw [hg]
      exact hrc
    rw [JNI_OnLoad_getenv_fail w vm (start b) hg1]
    cases w.USE_QUIET <;>
      simp [Res.calls, Res.machine, Res.halted, Machine.calls, start,
        Call.isDispatchInstall, Call.isSetProperties, Call.isLoggerInstall]

/-- Witness of C1: a load whose `jni_CreateGlobals` fails. -/
theorem C1_failed_load_installs_no_dispatch_witness :
    ((noClassCollab.GetEnv 1 Bridge.init.jni_version).1 ≠ JNI_OK ∨
      noClassCollab.jni_CreateGlobals (noClassCollab.GetEnv 1 Bridge.init.jni_version).2
        ≠ JNI_OK) ∧
    (∀ c ∈ (JNI_OnLoad noClassCollab 1 (start Bridge.init)).calls,
      c.isDispatchInstall = false ∧ c.isSetProperties = false ∧
        c.isLoggerInstall = false) ∧
    (JNI_OnLoad noClassCollab 1 (start Bridge.init)).machine.bridge.dispatch_proc = none :=
  ⟨Or.inr (by decide),
   (C1_failed_load_installs_no_dispatch noClassCollab 1 Bridge.init (Or.inr (by decide))).2.1,
   (C1_failed_load_installs_no_dispatch noClassCollab 1 Bridge.init
      (Or.inr (by decide))).2.2.2 rfl⟩

/-- C2 (as stated, refuted): one fully successful load/unload pair from the
initial state does not give the initial state back: the handle stays stored
and the logger and dispatch callbacks stay registered. -/
theorem C2_cycle_does_not_restore_state :
    okCycle.successful Bridge.init.jni_version ∧
    (runCycles [okCycle] (start Bridge.init)).halted = none ∧
    (runCycles [okCycle] (start Bridge.init)).machine.bridge ≠ Bridge.init ∧
    (runCycles [okCycle] (start Bridge.init)).machine.bridge.logger_proc
      = some .jni_Logger ∧
    (runCycles [okCycle] (start Bridge.init)).machine.bridge.dispatch_proc
      = some .jni_EventDispatcher ∧
    (runCycles [okCycle] (start Bridge.init)).machine.bridge.jvm = some 1 := by
  decide

/-- C2 (amended): every sequence of fully successful load/unload pairs
returns; the empty sequence leaves the state as it was, and a non-empty one
ends with the registry empty, the configuration cleared and `jni_version`
unchanged, while the handle of the last load stays stored and `jni_Logger`
and `jni_EventDispatcher` stay registered. -/
theorem C2_cycles_clear_registry_and_config_only (b : Bridge) (cs : List Cycle)
    (hs : ∀ c ∈ cs, c.successful b.jni_version) :
    (runCycles cs (start b)).halted = none ∧
    (cs = [] → (runCycles cs (start b)).machine.bridge = b) ∧
    (∀ c, cs.getLast? = some c →
      (runCycles cs (start b)).machine.bridge =
        { jvm := some c.vm, jni_version := b.jni_version, registry := false,
          config := false, logger_proc := some .jni_Logger,
          dispatch_proc := some .jni_EventDispatcher }) := by
  cases cs with
  | nil =>
    refine ⟨rfl, fun _ => rfl, ?_⟩
    intro c hc
    simp at hc
  | cons c0 cs =>
    obtain ⟨t, ht⟩ := runCycles_ok cs c0 (start b) hs
    rw [ht]
    refine ⟨rfl, fun h => absurd h (by simp), ?_⟩
    intro c hc
    rw [List.getLast?_cons] at hc
    have hc1 : cs.getLastD c0 = c := by
      rw [List.getLastD_eq_getLast?]
      exact Option.some.inj hc
    rw [hc1]
    rfl

/-- The pair `okCycle` is successful at the initial version. -/
theorem okCycle_all_successful : ∀ c ∈ [okCycle], c.successful Bridge.init.jni_version := by
  intro c hc
  rw [List.mem_singleton] at hc
  subst hc
  exact ⟨⟨rfl, Option.some_ne_none _⟩, rfl, rfl, Option.some_ne_none _⟩

/-- Witness of C2 (amended): the pair in which everything succeeds. -/
theorem C2_cycles_clear_registry_and_config_only_witness :
    (runCycles [okCycle] (start Bridge.init)).machine.bridge =
      { jvm := some 1, jni_version := JNI_VERSION_1_4, registry := false,
        config := false, logger_proc := some .jni_Logger,
        dispatch_proc := some .jni_EventDispatcher } :=
  (C2_cycles_clear_registry_and_config_only Bridge.init [okCycle] okCycle_all_successful).2.2
    okCycle rfl

/-- C3 (as stated, refuted): after a successful load the registry is
populated; an unload in which `GetEnv` fails and leaves `env` NULL does not
call `jni_DestroyGlobals`, and the registry is still populated afterwards. -/
theorem C3_unload_without_env_keeps_registry :
    (JNI_OnLoad okCollab 1 (start Bridge.init)).machine.bridge = loadedBridge ∧
    loadedBridge.registry = true ∧
    noEnvCollab.GetEnv 1 loadedBridge.jni_version = (-2, none) ∧
    (JNI_OnUnload noEnvCollab 1 (start loadedBridge)).halted = none ∧
    (JNI_OnUnload noEnvCollab 1 (start loadedBridge)).calls.countP
      Call.isDestroyGlobals = 0 ∧
    (JNI_OnUnload noEnvCollab 1 (start loadedBridge)).machine.bridge.registry = true := by
  decide

/-- C3 (amended): with the handle set, `JNI_OnUnload` destroys the registry
exactly when `env` is non-NULL after `GetEnv`: then `jni_DestroyGlobals` is
called once and the registry is empty afterwards; when `env` is left NULL,
`jni_DestroyGlobals` is not called and the registry stays as it was. -/
theorem C3_unload_destroys_registry_iff_env (w : Collab) (vm v : JavaVM) (b : Bridge)
    (hj : b.jvm = some v) :
    ((w.GetEnv v b.jni_version).2 ≠ none →
      (JNI_OnUnload w vm (start b)).calls.countP Call.isDestroyGlobals = 1 ∧
      (JNI_OnUnload w vm (start b)).machine.bridge.registry = false) ∧
    ((w.GetEnv v b.jni_version).2 = none →
      (JNI_OnUnload w vm (start b)).calls.countP Call.isDestroyGlobals = 0 ∧
      (JNI_OnUnload w vm (start b)).machine.bridge.registry = b.registry) := by
  rcases hg : w.GetEnv v b.jni_version with ⟨rc, env⟩
  by_cases hrc : rc = JNI_OK
  · subst hrc
    cases env with
    | none =>
      rw [JNI_OnUnload_ok_null w vm v (start b) hj hg]
      simp [Res.calls, Res.machine, Machine.calls, start, Call.isDestroyGlobals,
        List.countP_cons]
    | some en =>
      rw [JNI_OnUnload_ok w vm v (start b) en hj hg]
      simp [Res.calls, Res.machine, Machine.calls, start, Call.isDestroyGlobals,
        List.countP_cons]
  · cases env with
    | none =>
      rw [JNI_OnUnload_fail_null w vm v (start b) rc hj hg hrc]
      simp [Res.calls, Res.machine, Machine.calls, start, Call.isDestroyGlobals,
        List.countP_cons]
    | some en =>
      rw [JNI_OnUnload_fail_env w vm v (start b) rc en hj hg hrc]
      simp [Res.calls, Res.machine, Machine.calls, start, Call.isDestroyGlobals,
        List.countP_cons]

/-- Witness of C3 (amended): after a load, an unload that obtains the
environment destroys the registry and one that does not keeps it. -/
theorem C3_unload_destroys_registry_iff_env_witness :
    (JNI_OnUnload okCollab 1 (start loadedBridge)).machine.bridge.registry = false ∧
    (JNI_OnUnload noEnvCollab 1 (start loadedBridge)).machine.bridge.registry = true :=
  ⟨((C3_unload_destroys_registry_iff_env okCollab 1 1 loadedBridge rfl).1 (by decide)).2,
   ((C3_unload_destroys_registry_iff_env noEnvCollab 1 1 loadedBridge rfl).2 rfl).2⟩

/-- C4: when the environment is acquired and the registry population
succeeds, `JNI_OnLoad` returns, and after the environment lookup its calls are
exactly `jni_CreateGlobals`, `hook_set_logger_proc(&jni_Logger)`,
`jni_SetProperties`, `hook_set_dispatch_proc(&jni_EventDispatcher)`, once each
and in this order, followed by one DEBUG log line; the dispatch callback is
registered in a state where the registry is populated and the configuration
is mirrored. -/
theorem C4_successful_load_call_order (w : Collab) (vm : JavaVM) (b : Bridge)
    (env : Option JNIEnv)
    (h1 : w.GetEnv vm b.jni_version = (JNI_OK, env))
    (h2 : w.jni_CreateGlobals env = JNI_OK) :
    (JNI_OnLoad w vm (start b)).calls =
      [ .GetEnv vm b.jni_version,
        .jni_CreateGlobals env,
        .hook_set_logger_proc .jni_Logger,
        .jni_SetProperties env,
        .hook_set_dispatch_proc .jni_EventDispatcher,
        .jni_Logger .LOG_LEVEL_DEBUG "%s [%u]: JNI Loaded.\n" "JNI_OnLoad" 71 ] ∧
    (JNI_OnLoad w vm (start b)).halted = none ∧
    (∀ s ∈ (JNI_OnLoad w vm (start b)).machine.trace, s.call.isDispatchInstall = true →
      s.pre.registry = true ∧ s.pre.config = true) := by
  have h := JNI_OnLoadWith_ok ThrowFatalError w vm (start b) env h1 h2
  rw [JNI_OnLoad, h]
  simp [Res.calls, Res.machine, Res.halted, Machine.calls, start, Call.isDispatchInstall]

/-- Witness of C4: the load in which every collaborator succeeds. -/
theorem C4_successful_load_call_order_witness :
    (JNI_OnLoad okCollab 1 (start Bridge.init)).calls =
      [ .GetEnv 1 Bridge.init.jni_version,
        .jni_CreateGlobals (some 1),
        .hook_set_logger_proc .jni_Logger,
        .jni_SetProperties (some 1),
        .hook_set_dispatch_proc .jni_EventDispatcher,
        .jni_Logger .LOG_LEVEL_DEBUG "%s [%u]: JNI Loaded.\n" "JNI_OnLoad" 71 ] :=
  (C4_successful_load_call_order okCollab 1 Bridge.init (some 1) rfl rfl).1

/-- C5: one run of `JNI_OnLoad` calls `ThrowFatalError` exactly once when the
environment lookup or the registry population fails, and not at all when
both succeed, so never twice; the count is the same if `ThrowFatalError`
hands control back to the load. -/
theorem C5_fatal_signal_raised_exactly_once (w : Collab) (vm : JavaVM) (b : Bridge) :
    (JNI_OnLoad w vm (start b)).calls.countP Call.isThrowFatalError =
      (if (w.GetEnv vm b.jni_version).1 = JNI_OK ∧
          w.jni_CreateGlobals (w.GetEnv vm b.jni_version).2 = JNI_OK then 0 else 1) ∧
    (JNI_OnLoadWith ThrowFatalError_returning w vm (start b)).calls.countP
        Call.isThrowFatalError =
      (if (w.GetEnv vm b.jni_version).1 = JNI_OK ∧
          w.jni_CreateGlobals (w.GetEnv vm b.jni_version).2 = JNI_OK then 0 else 1) := by
  by_cases hok : (w.GetEnv vm b.jni_version).1 = JNI_OK ∧
      w.jni_CreateGlobals (w.GetEnv vm b.jni_version).2 = JNI_OK
  · rw [if_pos hok]
    have h1 : w.GetEnv vm (start b).bridge.jni_version
        = (JNI_OK, (w.GetEnv vm b.jni_version).2) :=
      Prod.ext hok.1 rfl
    rw [JNI_OnLoad, JNI_OnLoadWith_ok _ w vm (start b) _ h1 hok.2,
      JNI_OnLoadWith_ok _ w vm (start b) _ h1 hok.2]
    simp [Res.calls, Res.machine, Machine.calls, start, Call.isThrowFatalError,
      List.countP_cons]
  · rw [if_neg hok]
    refine ⟨?_, JNI_OnLoadWith_returning_fatal_count w vm b hok⟩
    by_cases hrc : (w.GetEnv vm b.jni_version).1 = JNI_OK
    · have h1 : w.GetEnv vm (start b).bridge.jni_version
          = (JNI_OK, (w.GetEnv vm b.jni_version).2) :=
        Prod.ext hrc rfl
      rw [JNI_OnLoad_create_fail w vm (start b) _ h1 (fun h => hok ⟨hrc, h⟩)]
      cases w.QUIET <;>
        simp [Res.calls, Res.machine, Machine.calls, start, Call.isThrowFatalError,
          List.countP_cons]
    · rw [JNI_OnLoad_getenv_fail w vm (start b) hrc]
      cases w.USE_QUIET <;>
        simp [Res.calls, Res.machine, Machine.calls, start, Call.isThrowFatalError,
          List.countP_cons]

/-- C6: `JNI_OnUnload` never calls `ThrowFatalError` and never stops with the
fatal signal; with the handle set it returns; when `GetEnv` does not answer
`JNI_OK` it logs exactly one WARN message, does not call
`jni_ClearProperties` and leaves the mirrored configuration as it was; when
`GetEnv` answers `JNI_OK` it logs no WARN message. -/
theorem C6_unload_is_never_fatal (w : Collab) (vm : JavaVM) (b : Bridge) :
    (∀ c ∈ (JNI_OnUnload w vm (start b)).calls, c.isThrowFatalError = false) ∧
    (∀ msg, (JNI_OnUnload w vm (start b)).halted ≠ some (.fatal msg)) ∧
    (∀ v, b.jvm = some v →
      (JNI_OnUnload w vm (start b)).halted = none ∧
      ((w.GetEnv v b.jni_version).1 ≠ JNI_OK →
        (JNI_OnUnload w vm (start b)).calls.countP Call.isWarn = 1 ∧
        (JNI_OnUnload w vm (start b)).calls.countP Call.isClearProperties = 0 ∧
        (JNI_OnUnload w vm (start b)).machine.bridge.config = b.config) ∧
      ((w.GetEnv v b.jni_version).1 = JNI_OK →
        (JNI_OnUnload w vm (start b)).calls.countP Call.isWarn = 0)) := by
  cases hj : b.jvm with
  | none =>
    rw [JNI_OnUnload_null w vm (start b) hj]
    simp [Res.calls, Res.machine, Res.halted, Machine.calls, start]
  | some v =>
    rcases hg : w.GetEnv v b.jni_version with ⟨rc, env⟩
    by_cases hrc : rc = JNI_OK
    · subst hrc
      cases env with
      | none =>
        rw [JNI_OnUnload_ok_null w vm v (start b) hj hg]
        simp [Res.calls, Res.machine, Res.halted, Machine.calls, start, hg,
          Call.isThrowFatalError, Call.isWarn, Call.isClearProperties, List.countP_cons]
      | some en =>
        rw [JNI_OnUnload_ok w vm v (start b) en hj hg]
        simp [Res.calls, Res.machine, Res.halted, Machine.calls, start, hg,
          Call.isThrowFatalError, Call.isWarn, Call.isClearProperties, List.countP_cons]
    · cases env with
      | none =>
        rw [JNI_OnUnload_fail_null w vm v (start b) rc hj hg hrc]
        simp [Res.calls, Res.machine, Res.halted, Machine.calls, start, hg, hrc,
          Call.isThrowFatalError, Call.isWarn, Call.isClearProperties, List.countP_cons]
      | some en =>
        rw [JNI_OnUnload_fail_env w vm v (start b) rc en hj hg hrc]
        simp [Res.calls, Res.machine, Res.halted, Machine.calls, start, hg, hrc,
          Call.isThrowFatalError, Call.isWarn, Call.isClearProperties, List.countP_cons]

/-- Witness of C6: an unload, after a load, in which no environment can be
obtained logs one WARN message and keeps the configuration. -/
theorem C6_unload_is_never_fatal_witness :
    (JNI_OnUnload noEnvCollab 1 (start loadedBridge)).halted = none ∧
    (JNI_OnUnload noEnvCollab 1 (start loadedBridge)).calls.countP Call.isWarn = 1 ∧
    (JNI_OnUnload noEnvCollab 1 (start loadedBridge)).calls.countP
      Call.isClearProperties = 0 ∧
    (JNI_OnUnload noEnvCollab 1 (start loadedBridge)).machine.bridge.config = true ∧
    (JNI_OnUnload okCollab 1 (start loadedBridge)).calls.countP Call.isWarn = 0 :=
  ⟨((C6_unload_is_never_fatal noEnvCollab 1 loadedBridge).2.2 1 rfl).1,
   (((C6_unload_is_never_fatal noEnvCollab 1 loadedBridge).2.2 1 rfl).2.1 (by decide)).1,
   (((C6_unload_is_never_fatal noEnvCollab 1 loadedBridge).2.2 1 rfl).2.1 (by decide)).2.1,
   (((C6_unload_is_never_fatal noEnvCollab 1 loadedBridge).2.2 1 rfl).2.1 (by decide)).2.2,
   ((C6_unload_is_never_fatal okCollab 1 loadedBridge).2.2 1 rfl).2.2 rfl⟩

/-- C7: when `JNI_OnUnload` obtains the environment its calls are the
environment lookup, `jni_ClearProperties`, one DEBUG log line and
`jni_DestroyGlobals`: the configuration is cleared exactly once, the registry
is destroyed exactly once, and the configuration is already cleared when the
registry is destroyed.  With the load order, and `GetEnv` answers that follow
the JNI contract, no sequence of invocations started where the configuration
is not mirrored without a populated registry reaches or passes through a
state where it is. -/
theorem C7_config_cleared_before_registry_destroyed (w : Collab) (vm v : JavaVM)
    (b : Bridge) (e : JNIEnv) (hj : b.jvm = some v)
    (hg : w.GetEnv v b.jni_version = (JNI_OK, some e)) :
    (JNI_OnUnload w vm (start b)).calls =
      [ .GetEnv v b.jni_version,
        .jni_ClearProperties (some e),
        .jni_Logger .LOG_LEVEL_DEBUG "%s [%u]: JNI Unloaded.\n" "JNI_OnUnload" 94,
        .jni_DestroyGlobals (some e) ] ∧
    (JNI_OnUnload w vm (start b)).calls.countP Call.isClearProperties = 1 ∧
    (JNI_OnUnload w vm (start b)).calls.countP Call.isDestroyGlobals = 1 ∧
    (∀ s ∈ (JNI_OnUnload w vm (start b)).machine.trace, s.call.isDestroyGlobals = true →
      s.pre.config = false) ∧
    (∀ (es : List Entry) (b0 : Bridge), (∀ en ∈ es, en.collab.conforming) →
      (b0.config = true → b0.registry = true) →
      ((runEntries es (start b0)).bridge.config = true →
        (runEntries es (start b0)).bridge.registry = true) ∧
      ∀ s ∈ (runEntries es (start b0)).trace,
        s.pre.config = true → s.pre.registry = true) := by
  rw [JNI_OnUnload_ok w vm v (start b) e hj hg]
  refine ⟨?_, ?_, ?_, ?_, ?_⟩
  · simp [Res.calls, Res.machine, Machine.calls, start]
  · simp [Res.calls, Res.machine, Machine.calls, start, Call.isClearProperties,
      List.countP_cons]
  · simp [Res.calls, Res.machine, Machine.calls, start, Call.isDestroyGlobals,
      List.countP_cons]
  · simp [Res.machine, start, Call.isDestroyGlobals]
  · intro es b0 hconf h0
    exact runEntries_inv _ _ (fun en => en.collab.conforming)
      (fun en m hw h => Entry.run_config_registry en m hw h) es (start b0) hconf
      ⟨h0, fun s hs => by simp [start] at hs⟩

/-- Witness of C7: the unload that follows a successful load. -/
theorem C7_config_cleared_before_registry_destroyed_witness :
    (JNI_OnUnload okCollab 1 (start loadedBridge)).calls =
      [ .GetEnv 1 loadedBridge.jni_version,
        .jni_ClearProperties (some 1),
        .jni_Logger .LOG_LEVEL_DEBUG "%s [%u]: JNI Unloaded.\n" "JNI_OnUnload" 94,
        .jni_DestroyGlobals (some 1) ] :=
  (C7_config_cleared_before_registry_destroyed okCollab 1 1 loadedBridge 1 rfl rfl).1

/-- C8: a fully successful `JNI_OnLoad` returns the value of `jni_version`
that it passed to its only `GetEnv` call; no later invocation changes
`jni_version`, every `GetEnv` call of every later invocation is made with
that value, and every later `JNI_OnUnload` begins by such a `GetEnv` call; in
the initial state the value is `JNI_VERSION_1_4 = 0x00010004`. -/
theorem C8_version_token_is_fixed (w : Collab) (vm : JavaVM) (b : Bridge)
    (env : Option JNIEnv)
    (h1 : w.GetEnv vm b.jni_version = (JNI_OK, env))
    (h2 : w.jni_CreateGlobals env = JNI_OK) :
    (JNI_OnLoad w vm (start b)).value = some b.jni_version ∧
    (JNI_OnLoad w vm (start b)).calls.filter Call.isGetEnv = [.GetEnv vm b.jni_version] ∧
    (∀ es : List Entry,
      (runEntries es (JNI_OnLoad w vm (start b)).machine).bridge.jni_version
        = b.jni_version ∧
      ∀ s ∈ (runEntries es (JNI_OnLoad w vm (start b)).machine).trace,
        ∀ v ver, s.call = .GetEnv v ver → ver = b.jni_version) ∧
    (∀ (es : List Entry) (wu : Collab) (vmu : JavaVM), ∃ v rest,
      (JNI_OnUnload wu vmu
        (start (runEntries es (JNI_OnLoad w vm (start b)).machine).bridge)).calls
        = .GetEnv v b.jni_version :: rest) ∧
    Bridge.init.jni_version = 0x00010004 := by
  have hload := JNI_OnLoadWith_ok ThrowFatalError w vm (start b) env h1 h2
  have hinv : ∀ es : List Entry,
      (runEntries es (JNI_OnLoad w vm (start b)).machine).Inv
        (fun b1 => b1.jni_version = b.jni_version)
        (fun s => ∀ v ver, s.call = .GetEnv v ver → ver = b.jni_version) := by
    intro es
    refine runEntries_inv _ _ (fun _ => True)
      (fun en m _ h => Entry.run_version b.jni_version en m h) es _
      (fun _ _ => trivial) ?_
    rw [JNI_OnLoad, hload]
    simp [Machine.Inv, Res.machine, start]
  refine ⟨?_, ?_, hinv, ?_, rfl⟩
  · rw [JNI_OnLoad, hload]
    rfl
  · rw [JNI_OnLoad, hload]
    simp [Res.calls, Res.machine, Machine.calls, start, Call.isGetEnv, List.filter_cons]
  · intro es wu vmu
    have hset : (runEntries es (JNI_OnLoad w vm (start b)).machine).bridge.jvm ≠ none :=
      runEntries_jvm_set es _ (by rw [JNI_OnLoad_stores_vm]; simp)
    obtain ⟨v, hv⟩ := Option.ne_none_iff_exists'.mp hset
    obtain ⟨-, -, rest, hrest⟩ := JNI_OnUnload_of_jvm wu vmu v
      (start (runEntries es (JNI_OnLoad w vm (start b)).machine).bridge) hv
    have hX : (start (runEntries es (JNI_OnLoad w vm (start b)).machine).bridge).bridge.jni_version
        = b.jni_version := (hinv es).1
    refine ⟨v, rest.map Step.call, ?_⟩
    rw [Res.calls, Machine.calls, hrest, hX]
    rfl

/-- Witness of C8: the load in which every collaborator succeeds returns
`0x00010004`. -/
theorem C8_version_token_is_fixed_witness :
    (JNI_OnLoad okCollab 1 (start Bridge.init)).value = some 0x00010004 :=
  (C8_version_token_is_fixed okCollab 1 Bridge.init (some 1) rfl rfl).1

/-- C9 (as stated, refuted): in the run made of one successful load and one
successful unload from the initial state, `jni_DestroyGlobals` is called
while the dispatch slot holds `jni_EventDispatcher`. -/
theorem C9_registry_destroyed_while_dispatch_registered :
    ∃ s ∈ (runEntries [.OnLoad okCollab 1, .OnUnload okCollab 1] (start Bridge.init)).trace,
      s.call.mutatesRegistry = true ∧ s.call.isDestroyGlobals = true ∧
        s.pre.dispatch_proc = some .jni_EventDispatcher := by
  decide

/-- C9 (amended): within `JNI_OnLoad` the registry is populated before the
dispatch callback is registered, so a load that starts with an empty dispatch
slot mutates the registry while no callback is registered.  Neither entry
point clears the slot: once it holds `jni_EventDispatcher` it holds it at
every later step, and in every run from the initial state each
`jni_DestroyGlobals` issued on a populated registry is issued while
`jni_EventDispatcher` is registered. -/
theorem C9_registry_mutation_and_dispatch_window (w : Collab) (vm : JavaVM) (b : Bridge)
    (hd : b.dispatch_proc = none) :
    (∀ s ∈ (JNI_OnLoad w vm (start b)).machine.trace, s.call.mutatesRegistry = true →
      s.pre.dispatch_proc = none) ∧
    (∀ (es : List Entry) (b1 : Bridge), b1.dispatch_proc = some .jni_EventDispatcher →
      ∀ s ∈ (runEntries es (start b1)).trace,
        s.pre.dispatch_proc = some .jni_EventDispatcher) ∧
    (∀ es : List Entry,
      ((runEntries es (start Bridge.init)).bridge.registry = true →
        (runEntries es (start Bridge.init)).bridge.dispatch_proc
          = some .jni_EventDispatcher) ∧
      ∀ s ∈ (runEntries es (start Bridge.init)).trace,
        s.call.isDestroyGlobals = true → s.pre.registry = true →
          s.pre.dispatch_proc = some .jni_EventDispatcher) := by
  refine ⟨?_, ?_, ?_⟩
  · rcases hg : w.GetEnv vm b.jni_version with ⟨rc, env⟩
    by_cases hrc : rc = JNI_OK
    · subst hrc
      by_cases hc : w.jni_CreateGlobals env = JNI_OK
      · rw [JNI_OnLoad, JNI_OnLoadWith_ok _ w vm (start b) env hg hc]
        simp [Res.machine, start, Call.mutatesRegistry, Call.isCreateGlobals,
          Call.isDestroyGlobals, hd]
      · rw [JNI_OnLoad_create_fail w vm (start b) env hg hc]
        cases w.QUIET <;>
          simp [Res.machine, start, Call.mutatesRegistry, Call.isCreateGlobals,
            Call.isDestroyGlobals, hd]
    · have hg1 : (w.GetEnv vm (start b).bridge.jni_version).1 ≠ JNI_OK := by
        show (w.GetEnv vm b.jni_version).1 ≠ JNI_OK
        rw [hg]
        exact hrc
      rw [JNI_OnLoad_getenv_fail w vm (start b) hg1]
      cases w.USE_QUIET <;>
        simp [Res.machine, start, Call.mutatesRegistry, Call.isCreateGlobals,
          Call.isDestroyGlobals, hd]
  · intro es b1 h1
    exact (runEntries_inv _ _ (fun _ => True)
      (fun en m _ h => Entry.run_dispatch_stays en m h) es (start b1)
      (fun _ _ => trivial) ⟨h1, fun s hs => by simp [start] at hs⟩).2
  · intro es
    exact runEntries_inv _ _ (fun _ => True)
      (fun en m _ h => Entry.run_registry_dispatch en m h) es (start Bridge.init)
      (fun _ _ => trivial)
      ⟨fun h => by simp [start, Bridge.init] at h, fun s hs => by simp [start] at hs⟩

/-- Witness of C9 (amended): the first load from the initial state
populates the registry while no callback is registered. -/
theorem C9_registry_mutation_and_dispatch_window_witness :
    Bridge.init.dispatch_proc = none ∧
    ∀ s ∈ (JNI_OnLoad okCollab 1 (start Bridge.init)).machine.trace,
      s.call.mutatesRegistry = true → s.pre.dispatch_proc = none :=
  ⟨rfl, (C9_registry_mutation_and_dispatch_window okCollab 1 Bridge.init rfl).1⟩

/-- C10: `JNI_OnUnload` does not use its argument.  After `JNI_OnLoad(vm)`,
whatever its outcome, the stored handle is `vm`; `JNI_OnUnload` then gives the
same result for every argument, looks the environment up on `vm`, returns
without dereferencing a NULL handle and leaves the stored handle `vm`; and in
any state that follows a load, after any further invocations, `JNI_OnUnload`
does not stop at a NULL handle. -/
theorem C10_unload_uses_stored_handle (wl wu : Collab) (vm vm1 vm2 : JavaVM) (b : Bridge) :
    (JNI_OnLoad wl vm (start b)).machine.bridge.jvm = some vm ∧
    (∀ m : Machine, JNI_OnUnload wu vm1 m = JNI_OnUnload wu vm2 m) ∧
    (∃ rest, (JNI_OnUnload wu vm1 (start (JNI_OnLoad wl vm (start b)).machine.bridge)).calls
      = .GetEnv vm b.jni_version :: rest) ∧
    (JNI_OnUnload wu vm1 (JNI_OnLoad wl vm (start b)).machine).halted = none ∧
    (JNI_OnUnload wu vm1 (JNI_OnLoad wl vm (start b)).machine).machine.bridge.jvm
      = some vm ∧
    (∀ es : List Entry,
      (JNI_OnUnload wu vm1 (runEntries es (JNI_OnLoad wl vm (start b)).machine)).halted
        ≠ some .nullDeref) := by
  have hvm := JNI_OnLoad_stores_vm wl vm (start b)
  have hver : (JNI_OnLoad wl vm (start b)).machine.bridge.jni_version = b.jni_version :=
    (Entry.run_version b.jni_version (.OnLoad wl vm) (start b)
      ⟨rfl, fun s hs => by simp [start] at hs⟩).1
  refine ⟨hvm, fun m => rfl, ?_, ?_, ?_, ?_⟩
  · obtain ⟨-, -, rest, hrest⟩ := JNI_OnUnload_of_jvm wu vm1 vm
      (start (JNI_OnLoad wl vm (start b)).machine.bridge) hvm
    have hX : (start (JNI_OnLoad wl vm (start b)).machine.bridge).bridge.jni_version
        = b.jni_version := hver
    refine ⟨rest.map Step.call, ?_⟩
    rw [Res.calls, Machine.calls, hrest, hX]
    rfl
  · exact (JNI_OnUnload_of_jvm wu vm1 vm _ hvm).1
  · exact (JNI_OnUnload_of_jvm wu vm1 vm _ hvm).2.1
  · intro es
    have hset : (runEntries es (JNI_OnLoad wl vm (start b)).machine).bridge.jvm ≠ none :=
      runEntries_jvm_set es _ (by rw [hvm]; simp)
    obtain ⟨v, hv⟩ := Option.ne_none_iff_exists'.mp hset
    rw [(JNI_OnUnload_of_jvm wu vm1 v _ hv).1]
    simp

end JNativeHook
